import Mathlib

/-!
Shallow embedding of the packer-plugin-digitalocean builder core
(src/builder/digitalocean/config.go: Config.Prepare, Builder.Prepare,
Builder.Run) and proofs of the specification claims about it.

Modelling conventions:
* Go pointer-typed optional fields (`*int`, `*float64`, `*bool`) become
  `Option _`; dereferencing a nil pointer is a Go panic, modelled by the
  surrounding computation returning `none`.
* `time.Duration` is an `Int` count of nanoseconds, with the `time.Second`
  and `time.Minute` constants spelled out.
* Go `float64` retry waits only ever hold exact decimal constants here
  (1.0, 30.0), modelled as `ℚ`.
* External collaborators (environment variables, strconv parsing, the
  filesystem, `Comm.Prepare`, the interpolation engine, the UUID source,
  the godo client constructor and the step runner) are oracles passed in
  as explicit environment records (`PrepEnv`, `RunEnv`).
* The global `packersdk.LogSecretFilter` is threaded as an explicit list
  of secrets; `Set` is modelled as set-like insertion.
-/

namespace digitalocean

/-- time.Second in nanoseconds (Go time.Duration is an int64 nanosecond
count). -/
def timeSecond : Int := 1000000000

/-- time.Minute in nanoseconds. -/
def timeMinute : Int := 60 * timeSecond

/-- The Config struct from src/builder/digitalocean/config.go, restricted
to the fields the builder core reads.  `CommSSHPrivateKeyFile` is
`Comm.SSHPrivateKeyFile` from the squashed communicator config;
`PackerDebug` and `PackerBuildName` come from the squashed
`common.PackerConfig`. -/
structure Config where
  APIToken : String
  APIURL : String
  HTTPRetryMax : Option Int
  HTTPRetryWaitMax : Option ℚ
  HTTPRetryWaitMin : Option ℚ
  Region : String
  Size : String
  Image : String
  PrivateNetworking : Bool
  Monitoring : Bool
  DropletAgent : Option Bool
  IPv6 : Bool
  SnapshotName : String
  SnapshotRegions : List String
  WaitSnapshotTransfer : Option Bool
  TransferTimeout : Int
  StateTimeout : Int
  SnapshotTimeout : Int
  DropletName : String
  UserData : String
  UserDataFile : String
  Tags : List String
  VPCUUID : String
  ConnectWithPrivateIP : Bool
  SSHKeyID : Int
  SkipKeygen : Bool
  CommSSHPrivateKeyFile : String
  PackerDebug : Bool
  PackerBuildName : String
deriving DecidableEq, Repr

/-- Oracle record for the external collaborators Config.Prepare consults:
`os.Getenv` (returns "" for unset variables), `strconv.Atoi`,
`strconv.ParseFloat` (none models a parse error), `os.Stat` existence,
the rendered default snapshot name `packer-{{timestamp}}`, the
time-ordered UUID, and the error list produced by the (external)
`Comm.Prepare`. -/
structure PrepEnv where
  getenv : String → String
  atoi : String → Option Int
  parseFloat : String → Option ℚ
  fileExists : String → Bool
  defaultSnapshotName : String
  timeOrderedUUID : String
  commPrepareErrs : List String

/-- The deprecation warning emitted when the token comes from
DIGITALOCEAN_API_TOKEN. -/
def deprecatedTokenWarning : String :=
  "The DIGITALOCEAN_API_TOKEN environment variable is deprecated"

/-- The api_token value after the token defaulting block of
Config.Prepare, and the warnings it emits: fall back to the
DIGITALOCEAN_TOKEN, DIGITALOCEAN_ACCESS_TOKEN and DIGITALOCEAN_API_TOKEN
environment variables in that order, warning on the deprecated third. -/
def tokenFromEnv (c : Config) (env : PrepEnv) : String × List String :=
  if c.APIToken ≠ "" then (c.APIToken, [])
  else if env.getenv "DIGITALOCEAN_TOKEN" ≠ "" then
    (env.getenv "DIGITALOCEAN_TOKEN", [])
  else if env.getenv "DIGITALOCEAN_ACCESS_TOKEN" ≠ "" then
    (env.getenv "DIGITALOCEAN_ACCESS_TOKEN", [])
  else if env.getenv "DIGITALOCEAN_API_TOKEN" ≠ "" then
    (env.getenv "DIGITALOCEAN_API_TOKEN", [deprecatedTokenWarning])
  else ("", [])

/-- Token defaulting block of Config.Prepare: only the APIToken field is
assigned. -/
def defaultToken (c : Config) (env : PrepEnv) : Config × List String :=
  ({ c with APIToken := (tokenFromEnv c env).1 }, (tokenFromEnv c env).2)

/-- APIURL defaulting block of Config.Prepare: only the APIURL field is
assigned, from the environment when unset. -/
def defaultAPIURL (c : Config) (env : PrepEnv) : Config :=
  { c with
    APIURL :=
      if c.APIURL = "" then env.getenv "DIGITALOCEAN_API_URL" else c.APIURL }

/-- The http_retry_max value after its defaulting block, and the
strconv.Atoi error if the overriding environment variable fails to
parse (the Go code has already stored the default 5 at that point). -/
def retryMaxFromEnv (c : Config) (env : PrepEnv) : Option Int × Option String :=
  if c.HTTPRetryMax ≠ none then (c.HTTPRetryMax, none)
  else if env.getenv "DIGITALOCEAN_HTTP_RETRY_MAX" = "" then (some 5, none)
  else
    match env.atoi (env.getenv "DIGITALOCEAN_HTTP_RETRY_MAX") with
    | none => (some 5, some "invalid DIGITALOCEAN_HTTP_RETRY_MAX")
    | some n => (some n, none)

/-- HTTPRetryMax defaulting block: default 5, overridable by the
DIGITALOCEAN_HTTP_RETRY_MAX environment variable; a strconv.Atoi failure
is an early `return nil, err` (the `some` error component). -/
def defaultRetryMax (c : Config) (env : PrepEnv) : Config × Option String :=
  ({ c with HTTPRetryMax := (retryMaxFromEnv c env).1 },
   (retryMaxFromEnv c env).2)

/-- The http_retry_wait_max value after its defaulting block, and the
strconv.ParseFloat error if the overriding environment variable fails to
parse. -/
def retryWaitMaxFromEnv (c : Config) (env : PrepEnv) :
    Option ℚ × Option String :=
  if c.HTTPRetryWaitMax ≠ none then (c.HTTPRetryWaitMax, none)
  else if env.getenv "DIGITALOCEAN_HTTP_RETRY_WAIT_MAX" = "" then
    (some 30, none)
  else
    match env.parseFloat (env.getenv "DIGITALOCEAN_HTTP_RETRY_WAIT_MAX") with
    | none => (some 30, some "invalid DIGITALOCEAN_HTTP_RETRY_WAIT_MAX")
    | some q => (some q, none)

/-- HTTPRetryWaitMax defaulting block: default 30.0, overridable by the
DIGITALOCEAN_HTTP_RETRY_WAIT_MAX environment variable. -/
def defaultRetryWaitMax (c : Config) (env : PrepEnv) : Config × Option String :=
  ({ c with HTTPRetryWaitMax := (retryWaitMaxFromEnv c env).1 },
   (retryWaitMaxFromEnv c env).2)

/-- The http_retry_wait_min value after its defaulting block, and the
strconv.ParseFloat error if the overriding environment variable fails to
parse. -/
def retryWaitMinFromEnv (c : Config) (env : PrepEnv) :
    Option ℚ × Option String :=
  if c.HTTPRetryWaitMin ≠ none then (c.HTTPRetryWaitMin, none)
  else if env.getenv "DIGITALOCEAN_HTTP_RETRY_WAIT_MIN" = "" then
    (some 1, none)
  else
    match env.parseFloat (env.getenv "DIGITALOCEAN_HTTP_RETRY_WAIT_MIN") with
    | none => (some 1, some "invalid DIGITALOCEAN_HTTP_RETRY_WAIT_MIN")
    | some q => (some q, none)

/-- HTTPRetryWaitMin defaulting block: default 1.0, overridable by the
DIGITALOCEAN_HTTP_RETRY_WAIT_MIN environment variable. -/
def defaultRetryWaitMin (c : Config) (env : PrepEnv) : Config × Option String :=
  ({ c with HTTPRetryWaitMin := (retryWaitMinFromEnv c env).1 },
   (retryWaitMinFromEnv c env).2)

/-- Name, timeout and wait-snapshot-transfer defaulting blocks of
Config.Prepare: each block assigns one field when it holds its zero
value, the blocks being independent of one another. -/
def defaultNamesAndTimeouts (c : Config) (env : PrepEnv) : Config :=
  { c with
    SnapshotName :=
      if c.SnapshotName = "" then env.defaultSnapshotName else c.SnapshotName,
    DropletName :=
      if c.DropletName = "" then "packer-" ++ env.timeOrderedUUID
      else c.DropletName,
    StateTimeout :=
      if c.StateTimeout = 0 then 6 * timeMinute else c.StateTimeout,
    SnapshotTimeout :=
      if c.SnapshotTimeout = 0 then 60 * timeMinute else c.SnapshotTimeout,
    TransferTimeout :=
      if c.TransferTimeout = 0 then 30 * timeMinute else c.TransferTimeout,
    WaitSnapshotTransfer :=
      if c.WaitSnapshotTransfer = none then some true
      else c.WaitSnapshotTransfer }

/-- The tag regular expression from the source,
`^[[:alnum:]:_-]{1,255}$`. -/
def tagValid (t : String) : Bool :=
  1 ≤ t.length && t.length ≤ 255 &&
    t.all fun ch => ch.isAlphanum || ch = ':' || ch = '_' || ch = '-'

/-- Validation block of Config.Prepare: the list of accumulated
MultiError messages, in source order.  (The Go `c.Tags == nil` guard
merely replaces a nil slice by an empty one, which is invisible in the
list model.) -/
def prepareValidate (c : Config) (env : PrepEnv) : List String :=
  let errs := env.commPrepareErrs
  let errs := errs ++
    (if c.APIToken = "" then ["api_token for auth must be specified"] else [])
  let errs := errs ++ (if c.Region = "" then ["region is required"] else [])
  let errs := errs ++ (if c.Size = "" then ["size is required"] else [])
  let errs := errs ++ (if c.Image = "" then ["image is required"] else [])
  let errs := errs ++
    (if c.UserData ≠ "" ∧ c.UserDataFile ≠ "" then
       ["only one of user_data or user_data_file can be specified"]
     else if c.UserDataFile ≠ "" ∧ ¬ env.fileExists c.UserDataFile then
       ["user_data_file not found: " ++ c.UserDataFile]
     else [])
  let errs := errs ++
    (c.Tags.filter (fun t => ! tagValid t)).map (fun t => "invalid tag: " ++ t)
  let errs := errs ++
    (if c.VPCUUID ≠ "" ∧ ¬ c.PrivateNetworking then
       ["private networking should be enabled to use vpc_uuid"] else [])
  errs ++
    (if c.ConnectWithPrivateIP ∧ ¬ c.PrivateNetworking then
       ["private networking should be enabled to use connect_with_private_ip"]
     else [])

/-- The error value Config.Prepare returns: an early `return nil, err`
from environment-variable parsing, or the accumulated MultiError. -/
inductive PrepErr
  | parse (msg : String)
  | multi (errs : List String)
deriving DecidableEq, Repr

/-- The observable outcome of Config.Prepare: the (partially) updated
config, the returned warnings, the returned error, and the state of the
global log secret filter after the call. -/
structure PrepResult where
  config : Config
  warns : List String
  err : Option PrepErr
  filter : List String
deriving DecidableEq, Repr

/-- Config.Prepare from src/builder/digitalocean/config.go, starting
after the (external) config.Decode call, threading the global
LogSecretFilter explicitly.  On an environment parse failure it returns
nil warnings and the parse error; if validation errors accumulated it
returns them without touching the filter; otherwise it registers the
API token with the filter and succeeds. -/
def Config.Prepare (c : Config) (env : PrepEnv) (filter : List String) :
    PrepResult :=
  let c1 := (defaultToken c env).1
  let warns := (defaultToken c env).2
  let c2 := defaultAPIURL c1 env
  let c3 := (defaultRetryMax c2 env).1
  match (defaultRetryMax c2 env).2 with
  | some e => { config := c3, warns := [], err := some (.parse e), filter := filter }
  | none =>
  let c4 := (defaultRetryWaitMax c3 env).1
  match (defaultRetryWaitMax c3 env).2 with
  | some e => { config := c4, warns := [], err := some (.parse e), filter := filter }
  | none =>
  let c5 := (defaultRetryWaitMin c4 env).1
  match (defaultRetryWaitMin c4 env).2 with
  | some e => { config := c5, warns := [], err := some (.parse e), filter := filter }
  | none =>
    let c6 := defaultNamesAndTimeouts c5 env
    let errs := prepareValidate c6 env
    if errs ≠ [] then
      { config := c6, warns := warns, err := some (.multi errs), filter := filter }
    else
      { config := c6, warns := warns, err := none,
        filter := filter.insert c6.APIToken }

/-- Builder.Prepare outcome: the Config.Prepare result, plus whether the
`ssh_key_id` / `ssh_private_key_file` consistency error was appended. -/
structure BuilderPrepResult where
  prep : PrepResult
  keyErrAdded : Bool
deriving DecidableEq, Repr

/-- Builder.Prepare from the builder source: run Config.Prepare, then
demand a private key file whenever an existing ssh_key_id is supplied.
The Go code returns the (possibly MultiError-appended) errs whenever it
is non-nil. -/
def Builder.Prepare (c : Config) (env : PrepEnv) (filter : List String) :
    BuilderPrepResult :=
  let r := Config.Prepare c env filter
  { prep := r,
    keyErrAdded :=
      r.config.SSHKeyID ≠ 0 ∧ r.config.CommSSHPrivateKeyFile = "" }

/-- Builder.Prepare succeeds (returns nil error) exactly when
Config.Prepare returned no error and no key consistency error was
appended. -/
def BuilderPrepResult.accepted (b : BuilderPrepResult) : Bool :=
  b.prep.err.isNone && ! b.keyErrAdded

/-- A value stored in the multistep BasicStateBag.  `nilVal` models a Go
nil interface value; `other` models values of types the artifact
construction never asserts on (config, client, hook, ui, generated
data...). -/
inductive StateVal
  | nilVal
  | str (s : String)
  | int (n : Int)
  | strList (l : List String)
  | err (e : String)
  | other (tag : String)
deriving DecidableEq, Repr

/-- The multistep BasicStateBag, as a key/value association list. -/
structure StateBag where
  entries : List (String × StateVal)
deriving DecidableEq, Repr

/-- BasicStateBag.Get / GetOk: `some` exactly when the key is present
(GetOk ok = true); the stored value itself may be `nilVal`. -/
def StateBag.get (st : StateBag) (k : String) : Option StateVal :=
  st.entries.lookup k

/-- A godo client option assembled in Builder.Run. -/
inductive ClientOpt
  | setUserAgent (ua : String)
  | setBaseURL (url : String)
  | withRetryAndBackoffs (retryMax : Int)
      (retryWaitMin retryWaitMax : Option ℚ)
deriving DecidableEq, Repr

/-- The godo client option list assembled by Builder.Run: always the
user agent, the base URL when api_url is set, and the retry/backoff
policy exactly when *HTTPRetryMax > 0.  Dereferencing the HTTPRetryMax
pointer panics when it is nil, hence the `Option` result. -/
def clientOpts (cfg : Config) (ua : String) : Option (List ClientOpt) :=
  match cfg.HTTPRetryMax with
  | none => none
  | some retryMax =>
    let opts := [ClientOpt.setUserAgent ua]
    let opts := opts ++
      (if cfg.APIURL ≠ "" then [ClientOpt.setBaseURL cfg.APIURL] else [])
    some (opts ++
      (if retryMax > 0 then
         [ClientOpt.withRetryAndBackoffs retryMax
            cfg.HTTPRetryWaitMin cfg.HTTPRetryWaitMax]
       else []))

/-- The first configured region slug (snapshot_regions followed by the
build region, matching `append(b.config.SnapshotRegions, b.config.Region)`)
absent from the fetched valid-region set. -/
def firstInvalidRegion (cfg : Config) (valid : List String) : Option String :=
  (cfg.SnapshotRegions ++ [cfg.Region]).find? fun r => ! valid.contains r

/-- The step list entries of Builder.Run.  External step types from the
packer SDK keep only the constructor arguments the builder supplies that
the claims mention; stepSnapshot keeps its three configuration fields. -/
inductive Step
  | nullStep
  | stepSSHKeyGen
  | stepDumpSSHKey (path : String)
  | stepCreateSSHKey
  | stepCreateDroplet
  | stepDropletInfo
  | stepConnect
  | stepProvision
  | stepCleanupTempKeys
  | stepShutdown
  | stepPowerOff
  | stepSnapshot (snapshotTimeout transferTimeout : Int)
      (waitForSnapshotTransfer : Bool)
deriving DecidableEq, Repr

/-- multistep.If from the packer SDK: the step when the condition holds,
otherwise a null step occupying the same list slot. -/
def multistepIf (keep : Bool) (s : Step) : Step :=
  if keep then s else Step.nullStep

/-- The temp-key predicate of Builder.Run: only generate the temp key
pair if one is not already provided. -/
def genTempKeyPair (cfg : Config) : Bool :=
  ! cfg.SkipKeygen &&
    (cfg.SSHKeyID == 0 || cfg.CommSSHPrivateKeyFile == "")

/-- The ordered step list assembled by Builder.Run.  Constructing the
snapshot step dereferences the WaitSnapshotTransfer pointer, which
panics when nil, hence the `Option` result. -/
def buildSteps (cfg : Config) : Option (List Step) :=
  match cfg.WaitSnapshotTransfer with
  | none => none
  | some wait =>
    some
      [ multistepIf (genTempKeyPair cfg) Step.stepSSHKeyGen,
        multistepIf (cfg.PackerDebug && cfg.CommSSHPrivateKeyFile == "")
          (Step.stepDumpSSHKey ("do_" ++ cfg.PackerBuildName ++ ".pem")),
        multistepIf (genTempKeyPair cfg) Step.stepCreateSSHKey,
        Step.stepCreateDroplet,
        Step.stepDropletInfo,
        Step.stepConnect,
        Step.stepProvision,
        multistepIf (genTempKeyPair cfg) Step.stepCleanupTempKeys,
        Step.stepShutdown,
        Step.stepPowerOff,
        Step.stepSnapshot cfg.SnapshotTimeout cfg.TransferTimeout wait ]

/-- The Artifact returned on success: snapshot name and id, region list,
and the StateData map of five metadata keys read with Get (no type
assertion, so possibly absent).  The godo client field carries no
observable data and is omitted. -/
structure Artifact where
  snapshotName : String
  snapshotId : Int
  regionNames : List String
  stateData : List (String × Option StateVal)
deriving DecidableEq, Repr

/-- Observable effects of Builder.Run before and around the pipeline:
the single valid-region fetch, the creation of the state bag, and the
handing of the step list to the runner. -/
inductive RunEvent
  | fetchRegions
  | createStateBag
  | runPipeline
deriving DecidableEq, Repr

/-- Oracle record for Builder.Run externals: whether url.Parse accepts
api_url, the user agent string, whether godo.New succeeds, the result of
the single Regions.List call, and the state bag as the (external) step
runner leaves it. -/
structure RunEnv where
  apiURLParseOk : Bool
  userAgent : String
  clientNewOk : Bool
  regionsResult : Except String (List String)
  finalState : StateBag

/-- The post-runner tail of Builder.Run: look at the error slot, then at
snapshot_name, then build the artifact with Go type assertions (`none`
models an assertion panic). -/
def finishRun (st : StateBag) : Option (Option Artifact × Option String) :=
  match st.get "error" with
  | some (StateVal.err e) => some (none, some e)
  | some _ => none
  | none =>
    match st.get "snapshot_name" with
    | none => some (none, none)
    | some nv =>
      match nv, st.get "snapshot_image_id", st.get "regions" with
      | StateVal.str name, some (StateVal.int imgId), some (StateVal.strList rs) =>
        some (some
          { snapshotName := name,
            snapshotId := imgId,
            regionNames := rs,
            stateData :=
              [ ("generated_data", st.get "generated_data"),
                ("source_image_id", st.get "source_image_id"),
                ("droplet_size", st.get "droplet_size"),
                ("droplet_name", st.get "droplet_name"),
                ("build_region", st.get "build_region") ] }, none)
      | _, _, _ => none

/-- The snapshot-regions pre-flight of Builder.Run: skipped entirely when
snapshot_regions is empty; otherwise one Regions.List fetch, then the
configured slugs (snapshot_regions plus the build region) are checked
against it, the first unknown slug failing the build. -/
def regionPreflight (cfg : Config) (env : RunEnv) :
    Except (List RunEvent × (Option Artifact × Option String))
      (List RunEvent) :=
  if cfg.SnapshotRegions = [] then Except.ok []
  else
    match env.regionsResult with
    | Except.error e =>
      Except.error ([RunEvent.fetchRegions],
        (none, some ("DigitalOcean: Unable to get regions, " ++ e)))
    | Except.ok valid =>
      match firstInvalidRegion cfg valid with
      | some r =>
        Except.error ([RunEvent.fetchRegions],
          (none, some ("DigitalOcean: Invalid region, " ++ r)))
      | none => Except.ok [RunEvent.fetchRegions]

/-- Builder.Run from the builder source, as the pair of its effect trace
and its returned (artifact, error) value; the outer `none` models a
panic (nil pointer dereference or failed type assertion).  Source order:
api_url parse check, client option assembly (HTTPRetryMax dereference),
godo.New, snapshot-regions pre-flight, state bag creation, step list
assembly (WaitSnapshotTransfer dereference), runner execution, then the
error slot / artifact tail. -/
def Builder.Run (cfg : Config) (env : RunEnv) :
    List RunEvent × Option (Option Artifact × Option String) :=
  if cfg.APIURL ≠ "" ∧ env.apiURLParseOk = false then
    ([], some (none, some "DigitalOcean: Invalid API URL."))
  else
    match clientOpts cfg env.userAgent with
    | none => ([], none)
    | some _opts =>
      if env.clientNewOk = false then
        ([], some (none, some "DigitalOcean: could not create client"))
      else
        match regionPreflight cfg env with
        | Except.error (evs, res) => (evs, some res)
        | Except.ok evs =>
          let evs := evs ++ [RunEvent.createStateBag]
          match buildSteps cfg with
          | none => (evs, none)
          | some _steps =>
            (evs ++ [RunEvent.runPipeline], finishRun env.finalState)

/-! Helper lemmas: each defaulting phase leaves the fields it does not
assign untouched. -/

theorem defaultToken_preserves (c : Config) (env : PrepEnv) :
    ((defaultToken c env).1).HTTPRetryMax = c.HTTPRetryMax ∧
    ((defaultToken c env).1).HTTPRetryWaitMax = c.HTTPRetryWaitMax ∧
    ((defaultToken c env).1).HTTPRetryWaitMin = c.HTTPRetryWaitMin ∧
    ((defaultToken c env).1).StateTimeout = c.StateTimeout ∧
    ((defaultToken c env).1).SnapshotTimeout = c.SnapshotTimeout ∧
    ((defaultToken c env).1).TransferTimeout = c.TransferTimeout ∧
    ((defaultToken c env).1).WaitSnapshotTransfer = c.WaitSnapshotTransfer := by
  exact ⟨rfl, rfl, rfl, rfl, rfl, rfl, rfl⟩

theorem defaultAPIURL_preserves (c : Config) (env : PrepEnv) :
    (defaultAPIURL c env).HTTPRetryMax = c.HTTPRetryMax ∧
    (defaultAPIURL c env).HTTPRetryWaitMax = c.HTTPRetryWaitMax ∧
    (defaultAPIURL c env).HTTPRetryWaitMin = c.HTTPRetryWaitMin ∧
    (defaultAPIURL c env).StateTimeout = c.StateTimeout ∧
    (defaultAPIURL c env).SnapshotTimeout = c.SnapshotTimeout ∧
    (defaultAPIURL c env).TransferTimeout = c.TransferTimeout ∧
    (defaultAPIURL c env).WaitSnapshotTransfer = c.WaitSnapshotTransfer := by
  exact ⟨rfl, rfl, rfl, rfl, rfl, rfl, rfl⟩

theorem defaultRetryMax_preserves (c : Config) (env : PrepEnv) :
    ((defaultRetryMax c env).1).HTTPRetryWaitMax = c.HTTPRetryWaitMax ∧
    ((defaultRetryMax c env).1).HTTPRetryWaitMin = c.HTTPRetryWaitMin ∧
    ((defaultRetryMax c env).1).StateTimeout = c.StateTimeout ∧
    ((defaultRetryMax c env).1).SnapshotTimeout = c.SnapshotTimeout ∧
    ((defaultRetryMax c env).1).TransferTimeout = c.TransferTimeout ∧
    ((defaultRetryMax c env).1).WaitSnapshotTransfer = c.WaitSnapshotTransfer := by
  exact ⟨rfl, rfl, rfl, rfl, rfl, rfl⟩

theorem defaultRetryWaitMax_preserves (c : Config) (env : PrepEnv) :
    ((defaultRetryWaitMax c env).1).HTTPRetryMax = c.HTTPRetryMax ∧
    ((defaultRetryWaitMax c env).1).HTTPRetryWaitMin = c.HTTPRetryWaitMin ∧
    ((defaultRetryWaitMax c env).1).StateTimeout = c.StateTimeout ∧
    ((defaultRetryWaitMax c env).1).SnapshotTimeout = c.SnapshotTimeout ∧
    ((defaultRetryWaitMax c env).1).TransferTimeout = c.TransferTimeout ∧
    ((defaultRetryWaitMax c env).1).WaitSnapshotTransfer = c.WaitSnapshotTransfer := by
  exact ⟨rfl, rfl, rfl, rfl, rfl, rfl⟩

theorem defaultRetryWaitMin_preserves (c : Config) (env : PrepEnv) :
    ((defaultRetryWaitMin c env).1).HTTPRetryMax = c.HTTPRetryMax ∧
    ((defaultRetryWaitMin c env).1).HTTPRetryWaitMax = c.HTTPRetryWaitMax ∧
    ((defaultRetryWaitMin c env).1).StateTimeout = c.StateTimeout ∧
    ((defaultRetryWaitMin c env).1).SnapshotTimeout = c.SnapshotTimeout ∧
    ((defaultRetryWaitMin c env).1).TransferTimeout = c.TransferTimeout ∧
    ((defaultRetryWaitMin c env).1).WaitSnapshotTransfer = c.WaitSnapshotTransfer := by
  exact ⟨rfl, rfl, rfl, rfl, rfl, rfl⟩

theorem defaultNamesAndTimeouts_preserves (c : Config) (env : PrepEnv) :
    (defaultNamesAndTimeouts c env).HTTPRetryMax = c.HTTPRetryMax ∧
    (defaultNamesAndTimeouts c env).HTTPRetryWaitMax = c.HTTPRetryWaitMax ∧
    (defaultNamesAndTimeouts c env).HTTPRetryWaitMin = c.HTTPRetryWaitMin := by
  exact ⟨rfl, rfl, rfl⟩

/-! Behaviour of the retry defaulting phases when the overriding
environment variable is unset. -/

theorem defaultRetryMax_unset (c : Config) (env : PrepEnv)
    (h1 : c.HTTPRetryMax = none)
    (h2 : env.getenv "DIGITALOCEAN_HTTP_RETRY_MAX" = "") :
    defaultRetryMax c env = ({ c with HTTPRetryMax := some 5 }, none) := by
  simp [defaultRetryMax, retryMaxFromEnv, h1, h2]

theorem defaultRetryMax_noParse (c : Config) (env : PrepEnv)
    (h : c.HTTPRetryMax ≠ none ∨
      env.getenv "DIGITALOCEAN_HTTP_RETRY_MAX" = "" ∨
      (env.atoi (env.getenv "DIGITALOCEAN_HTTP_RETRY_MAX")).isSome) :
    (defaultRetryMax c env).2 = none := by
  unfold defaultRetryMax retryMaxFromEnv
  rcases h with h | h | h
  · simp [h]
  · split_ifs <;> simp_all
  · rcases Option.isSome_iff_exists.mp h with ⟨n, hn⟩
    split_ifs <;> simp_all [hn]

theorem defaultRetryWaitMax_unset (c : Config) (env : PrepEnv)
    (h1 : c.HTTPRetryWaitMax = none)
    (h2 : env.getenv "DIGITALOCEAN_HTTP_RETRY_WAIT_MAX" = "") :
    defaultRetryWaitMax c env = ({ c with HTTPRetryWaitMax := some 30 }, none) := by
  simp [defaultRetryWaitMax, retryWaitMaxFromEnv, h1, h2]

theorem defaultRetryWaitMax_noParse (c : Config) (env : PrepEnv)
    (h : c.HTTPRetryWaitMax ≠ none ∨
      env.getenv "DIGITALOCEAN_HTTP_RETRY_WAIT_MAX" = "" ∨
      (env.parseFloat (env.getenv "DIGITALOCEAN_HTTP_RETRY_WAIT_MAX")).isSome) :
    (defaultRetryWaitMax c env).2 = none := by
  unfold defaultRetryWaitMax retryWaitMaxFromEnv
  rcases h with h | h | h
  · simp [h]
  · split_ifs <;> simp_all
  · rcases Option.isSome_iff_exists.mp h with ⟨q, hq⟩
    split_ifs <;> simp_all [hq]

theorem defaultRetryWaitMin_unset (c : Config) (env : PrepEnv)
    (h1 : c.HTTPRetryWaitMin = none)
    (h2 : env.getenv "DIGITALOCEAN_HTTP_RETRY_WAIT_MIN" = "") :
    defaultRetryWaitMin c env = ({ c with HTTPRetryWaitMin := some 1 }, none) := by
  simp [defaultRetryWaitMin, retryWaitMinFromEnv, h1, h2]

theorem defaultRetryWaitMin_noParse (c : Config) (env : PrepEnv)
    (h : c.HTTPRetryWaitMin ≠ none ∨
      env.getenv "DIGITALOCEAN_HTTP_RETRY_WAIT_MIN" = "" ∨
      (env.parseFloat (env.getenv "DIGITALOCEAN_HTTP_RETRY_WAIT_MIN")).isSome) :
    (defaultRetryWaitMin c env).2 = none := by
  unfold defaultRetryWaitMin retryWaitMinFromEnv
  rcases h with h | h | h
  · simp [h]
  · split_ifs <;> simp_all
  · rcases Option.isSome_iff_exists.mp h with ⟨q, hq⟩
    split_ifs <;> simp_all [hq]

theorem retryMaxFromEnv_fst_unset (c : Config) (env : PrepEnv)
    (h1 : c.HTTPRetryMax = none)
    (h2 : env.getenv "DIGITALOCEAN_HTTP_RETRY_MAX" = "") :
    (retryMaxFromEnv c env).1 = some 5 := by
  unfold retryMaxFromEnv
  split_ifs <;> simp_all

theorem retryWaitMaxFromEnv_fst_unset (c : Config) (env : PrepEnv)
    (h1 : c.HTTPRetryWaitMax = none)
    (h2 : env.getenv "DIGITALOCEAN_HTTP_RETRY_WAIT_MAX" = "") :
    (retryWaitMaxFromEnv c env).1 = some 30 := by
  unfold retryWaitMaxFromEnv
  split_ifs <;> simp_all

theorem retryWaitMinFromEnv_fst_unset (c : Config) (env : PrepEnv)
    (h1 : c.HTTPRetryWaitMin = none)
    (h2 : env.getenv "DIGITALOCEAN_HTTP_RETRY_WAIT_MIN" = "") :
    (retryWaitMinFromEnv c env).1 = some 1 := by
  unfold retryWaitMinFromEnv
  split_ifs <;> simp_all

/-! Concrete fixtures for the witness theorems. -/

/-- A fully-specified baseline configuration. -/
def cfg0 : Config :=
  { APIToken := "tok", APIURL := "",
    HTTPRetryMax := some 5, HTTPRetryWaitMax := some 30,
    HTTPRetryWaitMin := some 1,
    Region := "nyc3", Size := "s-1vcpu-1gb", Image := "ubuntu-20-04-x64",
    PrivateNetworking := false, Monitoring := false, DropletAgent := none,
    IPv6 := false, SnapshotName := "snap", SnapshotRegions := [],
    WaitSnapshotTransfer := some true, TransferTimeout := 1,
    StateTimeout := 1, SnapshotTimeout := 1, DropletName := "d",
    UserData := "", UserDataFile := "", Tags := [], VPCUUID := "",
    ConnectWithPrivateIP := false, SSHKeyID := 0, SkipKeygen := false,
    CommSSHPrivateKeyFile := "", PackerDebug := false,
    PackerBuildName := "b" }

/-- A Prepare environment with every variable unset, no files, and a
clean communicator. -/
def env0 : PrepEnv :=
  { getenv := fun _ => "", atoi := fun _ => none,
    parseFloat := fun _ => none, fileExists := fun _ => false,
    defaultSnapshotName := "packer-1700000000",
    timeOrderedUUID := "00000000-0000-0000-0000-000000000000",
    commPrepareErrs := [] }

/-- A Run environment where every external call succeeds, the provider
lists one region, and the runner leaves the state bag empty. -/
def renv0 : RunEnv :=
  { apiURLParseOk := true, userAgent := "ua", clientNewOk := true,
    regionsResult := Except.ok ["nyc3"], finalState := ⟨[]⟩ }

example :
    (Config.Prepare
      { cfg0 with HTTPRetryMax := none, HTTPRetryWaitMax := none,
                  HTTPRetryWaitMin := none } env0 []).config.HTTPRetryMax
      = some 5 := by decide

example :
    (Config.Prepare
      { cfg0 with StateTimeout := 0 } env0 []).config.StateTimeout
      = 6 * timeMinute := by decide

example :
    (Config.Prepare cfg0 env0 []).err = none := by decide

example :
    (Config.Prepare cfg0 env0 []).filter = ["tok"] := by decide

example :
    (Builder.Run cfg0 renv0).2 = some (none, none) := by decide

example :
    (Builder.Run { cfg0 with SnapshotRegions := ["ams3"] } renv0) =
      ([RunEvent.fetchRegions],
       some (none, some "DigitalOcean: Invalid region, ams3")) := by decide

/-- With none of the retry environment variables failing to parse,
Config.Prepare runs all defaulting phases to completion and its
resulting config is the full defaulting chain applied to the input. -/
theorem Prepare_config_noParse (c : Config) (env : PrepEnv) (fl : List String)
    (e1 : env.getenv "DIGITALOCEAN_HTTP_RETRY_MAX" = "" ∨
      (env.atoi (env.getenv "DIGITALOCEAN_HTTP_RETRY_MAX")).isSome)
    (e2 : env.getenv "DIGITALOCEAN_HTTP_RETRY_WAIT_MAX" = "" ∨
      (env.parseFloat (env.getenv "DIGITALOCEAN_HTTP_RETRY_WAIT_MAX")).isSome)
    (e3 : env.getenv "DIGITALOCEAN_HTTP_RETRY_WAIT_MIN" = "" ∨
      (env.parseFloat (env.getenv "DIGITALOCEAN_HTTP_RETRY_WAIT_MIN")).isSome) :
    (Config.Prepare c env fl).config =
      defaultNamesAndTimeouts
        ((defaultRetryWaitMin
          ((defaultRetryWaitMax
            ((defaultRetryMax
              (defaultAPIURL ((defaultToken c env).1) env) env).1)
            env).1) env).1) env := by
  simp only [Config.Prepare]
  rw [defaultRetryMax_noParse _ env (Or.inr e1),
    defaultRetryWaitMax_noParse _ env (Or.inr e2),
    defaultRetryWaitMin_noParse _ env (Or.inr e3)]
  split_ifs <;> rfl

theorem defaultNamesAndTimeouts_StateTimeout_zero (c : Config) (env : PrepEnv)
    (h : c.StateTimeout = 0) :
    (defaultNamesAndTimeouts c env).StateTimeout = 6 * timeMinute := by
  simp [defaultNamesAndTimeouts, h]

theorem defaultNamesAndTimeouts_SnapshotTimeout_zero (c : Config) (env : PrepEnv)
    (h : c.SnapshotTimeout = 0) :
    (defaultNamesAndTimeouts c env).SnapshotTimeout = 60 * timeMinute := by
  simp [defaultNamesAndTimeouts, h]

theorem defaultNamesAndTimeouts_TransferTimeout_zero (c : Config) (env : PrepEnv)
    (h : c.TransferTimeout = 0) :
    (defaultNamesAndTimeouts c env).TransferTimeout = 30 * timeMinute := by
  simp [defaultNamesAndTimeouts, h]

theorem defaultNamesAndTimeouts_Wait_none (c : Config) (env : PrepEnv)
    (h : c.WaitSnapshotTransfer = none) :
    (defaultNamesAndTimeouts c env).WaitSnapshotTransfer = some true := by
  simp [defaultNamesAndTimeouts, h]

/-- C3: after Config.Prepare on a configuration that leaves the retry
policy unset (and with no overriding environment variables), the
defaults are http_retry_max = 5, http_retry_wait_min = 1.0 seconds and
http_retry_wait_max = 30.0 seconds; and the client option list built by
Builder.Run contains the retry/backoff option exactly when the
configured http_retry_max is greater than 0, so a value of 0 disables
retrying. -/
theorem c3_retry_defaults_and_gating
    (c : Config) (env : PrepEnv) (fl : List String)
    (cfg : Config) (ua : String) (opts : List ClientOpt) (m : Int)
    (hmax : c.HTTPRetryMax = none)
    (hwmax : c.HTTPRetryWaitMax = none)
    (hwmin : c.HTTPRetryWaitMin = none)
    (e1 : env.getenv "DIGITALOCEAN_HTTP_RETRY_MAX" = "")
    (e2 : env.getenv "DIGITALOCEAN_HTTP_RETRY_WAIT_MAX" = "")
    (e3 : env.getenv "DIGITALOCEAN_HTTP_RETRY_WAIT_MIN" = "")
    (hm : cfg.HTTPRetryMax = some m)
    (hopts : clientOpts cfg ua = some opts) :
    (Config.Prepare c env fl).config.HTTPRetryMax = some 5 ∧
    (Config.Prepare c env fl).config.HTTPRetryWaitMin = some 1 ∧
    (Config.Prepare c env fl).config.HTTPRetryWaitMax = some 30 ∧
    (ClientOpt.withRetryAndBackoffs m cfg.HTTPRetryWaitMin
        cfg.HTTPRetryWaitMax ∈ opts ↔ 0 < m) := by
  have hcfg :=
    Prepare_config_noParse c env fl (Or.inl e1) (Or.inl e2) (Or.inl e3)
  refine ⟨?_, ?_, ?_, ?_⟩
  · rw [hcfg]; exact retryMaxFromEnv_fst_unset _ env hmax e1
  · rw [hcfg]; exact retryWaitMinFromEnv_fst_unset _ env hwmin e3
  · rw [hcfg]; exact retryWaitMaxFromEnv_fst_unset _ env hwmax e2
  · simp only [clientOpts, hm] at hopts
    obtain rfl : _ = opts := Option.some.inj hopts
    by_cases h0 : 0 < m <;> by_cases hu : cfg.APIURL = "" <;>
      simp [h0, hu]

/-- C3 witness: concrete defaulting run and concrete retry gating at
http_retry_max = 5. -/
theorem c3_witness :
    (Config.Prepare
      { cfg0 with HTTPRetryMax := none, HTTPRetryWaitMax := none,
                  HTTPRetryWaitMin := none } env0 []).config.HTTPRetryMax
        = some 5 ∧
    (Config.Prepare
      { cfg0 with HTTPRetryMax := none, HTTPRetryWaitMax := none,
                  HTTPRetryWaitMin := none } env0 []).config.HTTPRetryWaitMin
        = some 1 ∧
    (Config.Prepare
      { cfg0 with HTTPRetryMax := none, HTTPRetryWaitMax := none,
                  HTTPRetryWaitMin := none } env0 []).config.HTTPRetryWaitMax
        = some 30 ∧
    (ClientOpt.withRetryAndBackoffs 5 cfg0.HTTPRetryWaitMin
        cfg0.HTTPRetryWaitMax ∈
       [ClientOpt.setUserAgent "ua",
        ClientOpt.withRetryAndBackoffs 5 (some 1) (some 30)] ↔ (0 : Int) < 5) :=
  c3_retry_defaults_and_gating
    { cfg0 with HTTPRetryMax := none, HTTPRetryWaitMax := none,
                HTTPRetryWaitMin := none } env0 [] cfg0 "ua"
    [ClientOpt.setUserAgent "ua",
     ClientOpt.withRetryAndBackoffs 5 (some 1) (some 30)] 5
    rfl rfl rfl rfl rfl rfl rfl (by decide)

/-- C6: for every configuration that leaves them at their zero value
(and with the retry environment variables not failing to parse, so that
Config.Prepare reaches its timeout-defaulting blocks), Config.Prepare
sets state_timeout to 6 minutes, snapshot_timeout to 60 minutes and
transfer_timeout to 30 minutes. -/
theorem c6_timeout_defaults (c : Config) (env : PrepEnv) (fl : List String)
    (hst : c.StateTimeout = 0) (hsn : c.SnapshotTimeout = 0)
    (htr : c.TransferTimeout = 0)
    (e1 : env.getenv "DIGITALOCEAN_HTTP_RETRY_MAX" = "" ∨
      (env.atoi (env.getenv "DIGITALOCEAN_HTTP_RETRY_MAX")).isSome)
    (e2 : env.getenv "DIGITALOCEAN_HTTP_RETRY_WAIT_MAX" = "" ∨
      (env.parseFloat (env.getenv "DIGITALOCEAN_HTTP_RETRY_WAIT_MAX")).isSome)
    (e3 : env.getenv "DIGITALOCEAN_HTTP_RETRY_WAIT_MIN" = "" ∨
      (env.parseFloat (env.getenv "DIGITALOCEAN_HTTP_RETRY_WAIT_MIN")).isSome) :
    (Config.Prepare c env fl).config.StateTimeout = 6 * timeMinute ∧
    (Config.Prepare c env fl).config.SnapshotTimeout = 60 * timeMinute ∧
    (Config.Prepare c env fl).config.TransferTimeout = 30 * timeMinute := by
  have hcfg := Prepare_config_noParse c env fl e1 e2 e3
  refine ⟨?_, ?_, ?_⟩ <;> rw [hcfg]
  · exact defaultNamesAndTimeouts_StateTimeout_zero _ env hst
  · exact defaultNamesAndTimeouts_SnapshotTimeout_zero _ env hsn
  · exact defaultNamesAndTimeouts_TransferTimeout_zero _ env htr

/-- C6 witness: the three timeout defaults on a concrete zero-timeout
configuration. -/
theorem c6_witness :
    (Config.Prepare
      { cfg0 with StateTimeout := 0, SnapshotTimeout := 0,
                  TransferTimeout := 0 } env0 []).config.StateTimeout
        = 6 * timeMinute ∧
    (Config.Prepare
      { cfg0 with StateTimeout := 0, SnapshotTimeout := 0,
                  TransferTimeout := 0 } env0 []).config.SnapshotTimeout
        = 60 * timeMinute ∧
    (Config.Prepare
      { cfg0 with StateTimeout := 0, SnapshotTimeout := 0,
                  TransferTimeout := 0 } env0 []).config.TransferTimeout
        = 30 * timeMinute :=
  c6_timeout_defaults
    { cfg0 with StateTimeout := 0, SnapshotTimeout := 0,
                TransferTimeout := 0 } env0 []
    rfl rfl rfl (Or.inl rfl) (Or.inl rfl) (Or.inl rfl)

/-- C7: a configuration that does not set wait_snapshot_transfer gets it
defaulted to true by Config.Prepare, and the step list Builder.Run
assembles carries the configured value in the snapshot step as its
waitForSnapshotTransfer field. -/
theorem c7_wait_transfer_default (c : Config) (env : PrepEnv)
    (fl : List String) (cfg : Config) (w : Bool) (steps : List Step)
    (hw : c.WaitSnapshotTransfer = none)
    (e1 : env.getenv "DIGITALOCEAN_HTTP_RETRY_MAX" = "" ∨
      (env.atoi (env.getenv "DIGITALOCEAN_HTTP_RETRY_MAX")).isSome)
    (e2 : env.getenv "DIGITALOCEAN_HTTP_RETRY_WAIT_MAX" = "" ∨
      (env.parseFloat (env.getenv "DIGITALOCEAN_HTTP_RETRY_WAIT_MAX")).isSome)
    (e3 : env.getenv "DIGITALOCEAN_HTTP_RETRY_WAIT_MIN" = "" ∨
      (env.parseFloat (env.getenv "DIGITALOCEAN_HTTP_RETRY_WAIT_MIN")).isSome)
    (hcw : cfg.WaitSnapshotTransfer = some w)
    (hsteps : buildSteps cfg = some steps) :
    (Config.Prepare c env fl).config.WaitSnapshotTransfer = some true ∧
    Step.stepSnapshot cfg.SnapshotTimeout cfg.TransferTimeout w ∈ steps := by
  constructor
  · rw [Prepare_config_noParse c env fl e1 e2 e3]
    exact defaultNamesAndTimeouts_Wait_none _ env hw
  · simp only [buildSteps, hcw] at hsteps
    obtain rfl : _ = steps := Option.some.inj hsteps
    simp

/-- C7 witness: wait_snapshot_transfer defaults to true, and the
baseline step list carries waitForSnapshotTransfer = true. -/
theorem c7_witness :
    (Config.Prepare { cfg0 with WaitSnapshotTransfer := none }
        env0 []).config.WaitSnapshotTransfer = some true ∧
    Step.stepSnapshot cfg0.SnapshotTimeout cfg0.TransferTimeout true ∈
      [ Step.stepSSHKeyGen, Step.nullStep, Step.stepCreateSSHKey,
        Step.stepCreateDroplet, Step.stepDropletInfo, Step.stepConnect,
        Step.stepProvision, Step.stepCleanupTempKeys, Step.stepShutdown,
        Step.stepPowerOff, Step.stepSnapshot 1 1 true ] :=
  c7_wait_transfer_default { cfg0 with WaitSnapshotTransfer := none }
    env0 [] cfg0 true
    [ Step.stepSSHKeyGen, Step.nullStep, Step.stepCreateSSHKey,
      Step.stepCreateDroplet, Step.stepDropletInfo, Step.stepConnect,
      Step.stepProvision, Step.stepCleanupTempKeys, Step.stepShutdown,
      Step.stepPowerOff, Step.stepSnapshot 1 1 true ]
    rfl (Or.inl rfl) (Or.inl rfl) (Or.inl rfl) rfl (by decide)

/-- C9: when Builder.Prepare accepts a configuration, a non-zero
ssh_key_id forces a non-empty ssh_private_key_file, and consequently the
temp key pair predicate of Builder.Run reduces to skip_keygen being
false and ssh_key_id being 0. -/
theorem c9_accepted_key_consistency (c : Config) (env : PrepEnv)
    (fl : List String)
    (hacc : (Builder.Prepare c env fl).accepted = true) :
    ((Builder.Prepare c env fl).prep.config.SSHKeyID ≠ 0 →
      (Builder.Prepare c env fl).prep.config.CommSSHPrivateKeyFile ≠ "") ∧
    genTempKeyPair (Builder.Prepare c env fl).prep.config =
      (! (Builder.Prepare c env fl).prep.config.SkipKeygen &&
        ((Builder.Prepare c env fl).prep.config.SSHKeyID == 0)) := by
  simp only [Builder.Prepare, BuilderPrepResult.accepted, Bool.and_eq_true,
    Bool.not_eq_true', decide_eq_false_iff_not, not_and] at hacc
  obtain ⟨-, hkey⟩ := hacc
  refine ⟨hkey, ?_⟩
  by_cases hid : (Config.Prepare c env fl).config.SSHKeyID = 0
  · simp [genTempKeyPair, Builder.Prepare, hid]
  · have hfile := hkey hid
    have h1 : ((Config.Prepare c env fl).config.SSHKeyID == 0) = false :=
      beq_eq_false_iff_ne.mpr hid
    have h2 : ((Config.Prepare c env fl).config.CommSSHPrivateKeyFile == "")
        = false := beq_eq_false_iff_ne.mpr hfile
    simp [genTempKeyPair, Builder.Prepare, h1, h2]

/-- C9 witness: a configuration supplying both ssh_key_id and a private
key file is accepted and generates no temp key pair. -/
theorem c9_witness :
    ((Builder.Prepare
        { cfg0 with SSHKeyID := 7, CommSSHPrivateKeyFile := "k.pem" }
        env0 []).prep.config.SSHKeyID ≠ 0 →
      (Builder.Prepare
        { cfg0 with SSHKeyID := 7, CommSSHPrivateKeyFile := "k.pem" }
        env0 []).prep.config.CommSSHPrivateKeyFile ≠ "") ∧
    genTempKeyPair (Builder.Prepare
        { cfg0 with SSHKeyID := 7, CommSSHPrivateKeyFile := "k.pem" }
        env0 []).prep.config =
      (! (Builder.Prepare
          { cfg0 with SSHKeyID := 7, CommSSHPrivateKeyFile := "k.pem" }
          env0 []).prep.config.SkipKeygen &&
        ((Builder.Prepare
          { cfg0 with SSHKeyID := 7, CommSSHPrivateKeyFile := "k.pem" }
          env0 []).prep.config.SSHKeyID == 0)) :=
  c9_accepted_key_consistency
    { cfg0 with SSHKeyID := 7, CommSSHPrivateKeyFile := "k.pem" }
    env0 [] (by decide)

/-- C10: Config.Prepare registers the API token with the global log
secret filter only on its success path; every error return (parse or
accumulated validation errors) leaves the filter unchanged. -/
theorem c10_filter_only_on_success (c : Config) (env : PrepEnv)
    (fl : List String) :
    ((Config.Prepare c env fl).err ≠ none →
      (Config.Prepare c env fl).filter = fl) ∧
    ((Config.Prepare c env fl).err = none →
      (Config.Prepare c env fl).filter =
        fl.insert (Config.Prepare c env fl).config.APIToken) := by
  simp only [Config.Prepare]
  split
  · exact ⟨fun _ => rfl, by simp⟩
  · split
    · exact ⟨fun _ => rfl, by simp⟩
    · split
      · exact ⟨fun _ => rfl, by simp⟩
      · split_ifs
        · exact ⟨fun _ => rfl, by simp⟩
        · exact ⟨by simp, fun _ => rfl⟩

/-- C10 witness: a rejected configuration (missing region) leaves a
concrete filter untouched, and the accepted baseline registers its
token. -/
theorem c10_witness :
    (Config.Prepare { cfg0 with Region := "" } env0 ["s"]).filter = ["s"] ∧
    (Config.Prepare cfg0 env0 []).filter =
      [].insert (Config.Prepare cfg0 env0 []).config.APIToken :=
  ⟨(c10_filter_only_on_success { cfg0 with Region := "" } env0 ["s"]).1
      (by decide),
   (c10_filter_only_on_success cfg0 env0 []).2 (by decide)⟩

/-- C4: the temporary SSH key generation and registration steps appear
in the assembled pipeline exactly when skip_keygen is false and the
caller did not supply both an existing key id and a private-key file;
the predicate is the once-evaluated genTempKeyPair boolean used at step
list assembly. -/
theorem c4_keygen_inclusion (cfg : Config) (steps : List Step)
    (hsteps : buildSteps cfg = some steps) :
    (Step.stepSSHKeyGen ∈ steps ↔
      (cfg.SkipKeygen = false ∧
        (cfg.SSHKeyID = 0 ∨ cfg.CommSSHPrivateKeyFile = ""))) ∧
    (Step.stepCreateSSHKey ∈ steps ↔
      (cfg.SkipKeygen = false ∧
        (cfg.SSHKeyID = 0 ∨ cfg.CommSSHPrivateKeyFile = ""))) := by
  have hg : genTempKeyPair cfg = true ↔
      (cfg.SkipKeygen = false ∧
        (cfg.SSHKeyID = 0 ∨ cfg.CommSSHPrivateKeyFile = "")) := by
    simp [genTempKeyPair]
  rcases hw : cfg.WaitSnapshotTransfer with _ | w
  · simp [buildSteps, hw] at hsteps
  · simp only [buildSteps, hw] at hsteps
    obtain rfl : _ = steps := Option.some.inj hsteps
    by_cases hgen : genTempKeyPair cfg = true
    · constructor <;>
        · simp only [multistepIf, hgen, if_true]
          simpa using hg.mp hgen
    · have hgen' : genTempKeyPair cfg = false :=
        Bool.not_eq_true _ ▸ Bool.of_not_eq_true hgen
      have hnp := fun hp => hgen (hg.mpr hp)
      by_cases hdbg :
          (cfg.PackerDebug && (cfg.CommSSHPrivateKeyFile == "")) = true
      · constructor <;>
          · simp only [multistepIf, hgen', if_false, hdbg, if_true,
              Bool.false_eq_true]
            simpa using hnp
      · have hdbg' :
            (cfg.PackerDebug && (cfg.CommSSHPrivateKeyFile == "")) = false :=
          Bool.not_eq_true _ ▸ Bool.of_not_eq_true hdbg
        constructor <;>
          · simp only [multistepIf, hgen', hdbg', if_false,
              Bool.false_eq_true]
            simpa using hnp

/-- C4 witness: with the baseline configuration (no key supplied,
keygen not skipped) both keygen steps are in the list. -/
theorem c4_witness :
    (Step.stepSSHKeyGen ∈
      [ Step.stepSSHKeyGen, Step.nullStep, Step.stepCreateSSHKey,
        Step.stepCreateDroplet, Step.stepDropletInfo, Step.stepConnect,
        Step.stepProvision, Step.stepCleanupTempKeys, Step.stepShutdown,
        Step.stepPowerOff, Step.stepSnapshot 1 1 true ] ↔
      (cfg0.SkipKeygen = false ∧
        (cfg0.SSHKeyID = 0 ∨ cfg0.CommSSHPrivateKeyFile = ""))) ∧
    (Step.stepCreateSSHKey ∈
      [ Step.stepSSHKeyGen, Step.nullStep, Step.stepCreateSSHKey,
        Step.stepCreateDroplet, Step.stepDropletInfo, Step.stepConnect,
        Step.stepProvision, Step.stepCleanupTempKeys, Step.stepShutdown,
        Step.stepPowerOff, Step.stepSnapshot 1 1 true ] ↔
      (cfg0.SkipKeygen = false ∧
        (cfg0.SSHKeyID = 0 ∨ cfg0.CommSSHPrivateKeyFile = ""))) :=
  c4_keygen_inclusion cfg0
    [ Step.stepSSHKeyGen, Step.nullStep, Step.stepCreateSSHKey,
      Step.stepCreateDroplet, Step.stepDropletInfo, Step.stepConnect,
      Step.stepProvision, Step.stepCleanupTempKeys, Step.stepShutdown,
      Step.stepPowerOff, Step.stepSnapshot 1 1 true ] (by decide)

/-- C5: in the assembled step list the shutdown step sits at index 8,
the power-off step at index 9 and the snapshot step at index 10 of the
11 steps, so shutdown precedes power-off, which precedes snapshot. -/
theorem c5_shutdown_poweroff_snapshot_order (cfg : Config)
    (steps : List Step) (hsteps : buildSteps cfg = some steps) :
    steps.length = 11 ∧
    steps.get? 8 = some Step.stepShutdown ∧
    steps.get? 9 = some Step.stepPowerOff ∧
    ∃ w, steps.get? 10 =
      some (Step.stepSnapshot cfg.SnapshotTimeout cfg.TransferTimeout w) := by
  rcases hw : cfg.WaitSnapshotTransfer with _ | w
  · simp [buildSteps, hw] at hsteps
  · simp only [buildSteps, hw] at hsteps
    obtain rfl : _ = steps := Option.some.inj hsteps
    exact ⟨rfl, rfl, rfl, w, rfl⟩

/-- C5 witness: the concrete baseline step list has the three steps in
order at indices 8, 9 and 10. -/
theorem c5_witness :
    ([ Step.stepSSHKeyGen, Step.nullStep, Step.stepCreateSSHKey,
       Step.stepCreateDroplet, Step.stepDropletInfo, Step.stepConnect,
       Step.stepProvision, Step.stepCleanupTempKeys, Step.stepShutdown,
       Step.stepPowerOff, Step.stepSnapshot 1 1 true ] : List Step).length
        = 11 ∧
    ([ Step.stepSSHKeyGen, Step.nullStep, Step.stepCreateSSHKey,
       Step.stepCreateDroplet, Step.stepDropletInfo, Step.stepConnect,
       Step.stepProvision, Step.stepCleanupTempKeys, Step.stepShutdown,
       Step.stepPowerOff, Step.stepSnapshot 1 1 true ] : List Step).get? 8
        = some Step.stepShutdown ∧
    ([ Step.stepSSHKeyGen, Step.nullStep, Step.stepCreateSSHKey,
       Step.stepCreateDroplet, Step.stepDropletInfo, Step.stepConnect,
       Step.stepProvision, Step.stepCleanupTempKeys, Step.stepShutdown,
       Step.stepPowerOff, Step.stepSnapshot 1 1 true ] : List Step).get? 9
        = some Step.stepPowerOff ∧
    ∃ w, ([ Step.stepSSHKeyGen, Step.nullStep, Step.stepCreateSSHKey,
       Step.stepCreateDroplet, Step.stepDropletInfo, Step.stepConnect,
       Step.stepProvision, Step.stepCleanupTempKeys, Step.stepShutdown,
       Step.stepPowerOff, Step.stepSnapshot 1 1 true ] : List Step).get? 10
        = some (Step.stepSnapshot cfg0.SnapshotTimeout
            cfg0.TransferTimeout w) :=
  c5_shutdown_poweroff_snapshot_order cfg0
    [ Step.stepSSHKeyGen, Step.nullStep, Step.stepCreateSSHKey,
      Step.stepCreateDroplet, Step.stepDropletInfo, Step.stepConnect,
      Step.stepProvision, Step.stepCleanupTempKeys, Step.stepShutdown,
      Step.stepPowerOff, Step.stepSnapshot 1 1 true ] (by decide)

/-- The events of a failed snapshot-regions pre-flight are exactly one
region fetch. -/
theorem regionPreflight_error_events (cfg : Config) (env : RunEnv)
    (evs : List RunEvent) (res : Option Artifact × Option String)
    (h : regionPreflight cfg env = Except.error (evs, res)) :
    evs = [RunEvent.fetchRegions] := by
  by_cases hemp : cfg.SnapshotRegions = []
  · simp [regionPreflight, hemp] at h
  · rcases hres : env.regionsResult with e | valid
    · simp [regionPreflight, hemp, hres] at h
      exact h.1.symm
    · rcases hfir : firstInvalidRegion cfg valid with _ | r
      · simp [regionPreflight, hemp, hres, hfir] at h
      · simp [regionPreflight, hemp, hres, hfir] at h
        exact h.1.symm

/-- The events of a passed snapshot-regions pre-flight: none when the
region list is empty, exactly one fetch otherwise. -/
theorem regionPreflight_ok_events (cfg : Config) (env : RunEnv)
    (evs : List RunEvent)
    (h : regionPreflight cfg env = Except.ok evs) :
    (cfg.SnapshotRegions = [] ∧ evs = []) ∨ evs = [RunEvent.fetchRegions] := by
  by_cases hemp : cfg.SnapshotRegions = []
  · simp [regionPreflight, hemp] at h
    exact Or.inl ⟨hemp, h⟩
  · rcases hres : env.regionsResult with e | valid
    · simp [regionPreflight, hemp, hres] at h
    · rcases hfir : firstInvalidRegion cfg valid with _ | r
      · simp [regionPreflight, hemp, hres, hfir] at h
        exact Or.inr h.symm
      · simp [regionPreflight, hemp, hres, hfir] at h

/-- When the api_url, client-option and client-construction guards all
pass, Builder.Run reduces to the pre-flight followed by the pipeline. -/
theorem Run_eq_of_guards (cfg : Config) (env : RunEnv)
    (hurl : cfg.APIURL = "" ∨ env.apiURLParseOk = true)
    (opts : List ClientOpt)
    (hopts : clientOpts cfg env.userAgent = some opts)
    (hclient : env.clientNewOk = true) :
    Builder.Run cfg env =
      match regionPreflight cfg env with
      | Except.error (evs, res) => (evs, some res)
      | Except.ok evs =>
        match buildSteps cfg with
        | none => (evs ++ [RunEvent.createStateBag], none)
        | some _ =>
          ((evs ++ [RunEvent.createStateBag]) ++ [RunEvent.runPipeline],
            finishRun env.finalState) := by
  have hcond : ¬ (cfg.APIURL ≠ "" ∧ env.apiURLParseOk = false) := by
    rcases hurl with h | h
    · exact fun hc => hc.1 h
    · intro hc
      rw [h] at hc
      exact absurd hc.2 (by simp)
  unfold Builder.Run
  rw [if_neg hcond, hopts, hclient]
  rfl

/-- C1: with the api_url, client-option and client-construction guards
passing, Builder.Run performs no region fetch when snapshot_regions is
empty; for a non-empty snapshot_regions it fetches the valid-region
list exactly once, and if any configured slug (snapshot_regions plus
the build region) is absent from the fetched list the run stops with
an invalid-region error, its whole effect trace being that single
fetch — so no state bag is created and no pipeline step runs. -/
theorem c1_region_preflight (cfg : Config) (env : RunEnv)
    (opts : List ClientOpt)
    (hurl : cfg.APIURL = "" ∨ env.apiURLParseOk = true)
    (hopts : clientOpts cfg env.userAgent = some opts)
    (hclient : env.clientNewOk = true) :
    (cfg.SnapshotRegions = [] →
      RunEvent.fetchRegions ∉ (Builder.Run cfg env).1) ∧
    (cfg.SnapshotRegions ≠ [] →
      ((Builder.Run cfg env).1.count RunEvent.fetchRegions = 1)) ∧
    (∀ fetched, cfg.SnapshotRegions ≠ [] →
      env.regionsResult = Except.ok fetched →
      (∃ r, r ∈ cfg.SnapshotRegions ++ [cfg.Region] ∧ r ∉ fetched) →
      ((Builder.Run cfg env).1 = [RunEvent.fetchRegions] ∧
       ∃ r, r ∈ cfg.SnapshotRegions ++ [cfg.Region] ∧ r ∉ fetched ∧
         (Builder.Run cfg env).2 =
           some (none, some ("DigitalOcean: Invalid region, " ++ r)))) := by
  have hrun := Run_eq_of_guards cfg env hurl opts hopts hclient
  refine ⟨?_, ?_, ?_⟩
  · intro hempty
    have hok : regionPreflight cfg env = Except.ok [] := by
      simp [regionPreflight, hempty]
    rw [hrun, hok]
    rcases buildSteps cfg with _ | steps <;> simp
  · intro hne
    rw [hrun]
    rcases hrp : regionPreflight cfg env with ⟨evs, res⟩ | evs
    · rw [regionPreflight_error_events cfg env evs res hrp]
      rfl
    · rcases regionPreflight_ok_events cfg env evs hrp with ⟨h, _⟩ | rfl
      · exact absurd h hne
      · rcases buildSteps cfg with _ | steps <;> rfl
  · rintro fetched hne hfetch ⟨r, hrmem, hrnot⟩
    have hsome : (firstInvalidRegion cfg fetched).isSome := by
      unfold firstInvalidRegion
      exact List.find?_isSome.mpr ⟨r, hrmem, by simpa using hrnot⟩
    obtain ⟨r0, hr0⟩ := Option.isSome_iff_exists.mp hsome
    have hr0f : List.find? (fun r => ! fetched.contains r)
        (cfg.SnapshotRegions ++ [cfg.Region]) = some r0 := hr0
    have hr0p : (! fetched.contains r0) = true :=
      @List.find?_some _ (fun r => ! fetched.contains r) r0
        (cfg.SnapshotRegions ++ [cfg.Region]) hr0f
    have hr0mem : r0 ∈ cfg.SnapshotRegions ++ [cfg.Region] :=
      List.mem_of_find?_eq_some hr0f
    have hrp : regionPreflight cfg env =
        Except.error ([RunEvent.fetchRegions],
          (none, some ("DigitalOcean: Invalid region, " ++ r0))) := by
      simp [regionPreflight, hne, hfetch, hr0]
    rw [hrun, hrp]
    exact ⟨rfl, r0, hr0mem, by simpa using hr0p, rfl⟩

/-- C1 witness: one unknown region slug stops a concrete run right
after the single fetch. -/
theorem c1_witness :
    ((Builder.Run { cfg0 with SnapshotRegions := ["ams3"] } renv0).1 =
      [RunEvent.fetchRegions] ∧
     ∃ r, r ∈ ({ cfg0 with SnapshotRegions := ["ams3"] } : Config).SnapshotRegions ++
         [({ cfg0 with SnapshotRegions := ["ams3"] } : Config).Region] ∧
       r ∉ ["nyc3"] ∧
       (Builder.Run { cfg0 with SnapshotRegions := ["ams3"] } renv0).2 =
         some (none, some ("DigitalOcean: Invalid region, " ++ r))) :=
  (c1_region_preflight { cfg0 with SnapshotRegions := ["ams3"] } renv0
      [ClientOpt.setUserAgent "ua",
       ClientOpt.withRetryAndBackoffs 5 (some 1) (some 30)]
      (Or.inl rfl) (by decide) rfl).2.2
    ["nyc3"] (by decide) rfl ⟨"ams3", by decide, by decide⟩

/-- A failed snapshot-regions pre-flight carries a nil artifact and an
error message as its result. -/
theorem regionPreflight_error_res (cfg : Config) (env : RunEnv)
    (evs : List RunEvent) (res : Option Artifact × Option String)
    (h : regionPreflight cfg env = Except.error (evs, res)) :
    ∃ msg, res = (none, some msg) := by
  by_cases hemp : cfg.SnapshotRegions = []
  · simp [regionPreflight, hemp] at h
  · rcases hres : env.regionsResult with e | valid
    · simp [regionPreflight, hemp, hres] at h
      exact ⟨"DigitalOcean: Unable to get regions, " ++ e, h.2.symm⟩
    · rcases hfir : firstInvalidRegion cfg valid with _ | r
      · simp [regionPreflight, hemp, hres, hfir] at h
      · simp [regionPreflight, hemp, hres, hfir] at h
        exact ⟨"DigitalOcean: Invalid region, " ++ r, h.2.symm⟩

/-- Shape of the value Builder.Run returns: an early error with no
pipeline run, a panic, or the post-runner tail applied to the final
state after the pipeline ran. -/
theorem Run_snd_cases (cfg : Config) (env : RunEnv) :
    (∃ msg, (Builder.Run cfg env).2 = some (none, some msg) ∧
      RunEvent.runPipeline ∉ (Builder.Run cfg env).1) ∨
    ((Builder.Run cfg env).2 = none ∧
      RunEvent.runPipeline ∉ (Builder.Run cfg env).1) ∨
    (RunEvent.runPipeline ∈ (Builder.Run cfg env).1 ∧
      (Builder.Run cfg env).2 = finishRun env.finalState) := by
  by_cases hc1 : cfg.APIURL ≠ "" ∧ env.apiURLParseOk = false
  · exact Or.inl ⟨"DigitalOcean: Invalid API URL.",
      by simp [Builder.Run, hc1], by simp [Builder.Run, hc1]⟩
  · rcases hco : clientOpts cfg env.userAgent with _ | opts
    · exact Or.inr (Or.inl ⟨by simp [Builder.Run, hc1, hco],
        by simp [Builder.Run, hc1, hco]⟩)
    · by_cases hc2 : env.clientNewOk = false
      · exact Or.inl ⟨"DigitalOcean: could not create client",
          by simp [Builder.Run, hc1, hco, hc2],
          by simp [Builder.Run, hc1, hco, hc2]⟩
      · rcases hrp : regionPreflight cfg env with ⟨evs, res⟩ | evs
        · obtain ⟨msg, hres⟩ := regionPreflight_error_res cfg env evs res hrp
          have hevs := regionPreflight_error_events cfg env evs res hrp
          subst hres hevs
          exact Or.inl ⟨msg, by simp [Builder.Run, hc1, hco, hc2, hrp],
            by simp [Builder.Run, hc1, hco, hc2, hrp]⟩
        · rcases hbs : buildSteps cfg with _ | steps
          · refine Or.inr (Or.inl
              ⟨by simp [Builder.Run, hc1, hco, hc2, hrp, hbs], ?_⟩)
            rcases regionPreflight_ok_events cfg env evs hrp with ⟨-, rfl⟩ | rfl <;>
              simp [Builder.Run, hc1, hco, hc2, hrp, hbs]
          · exact Or.inr (Or.inr
              ⟨by simp [Builder.Run, hc1, hco, hc2, hrp, hbs],
               by simp [Builder.Run, hc1, hco, hc2, hrp, hbs]⟩)

/-- C8: if after the runner finishes the state bag holds neither an
"error" entry nor a "snapshot_name" entry, Builder.Run returns nil for
both the artifact and the error. -/
theorem c8_no_error_no_snapshot_nil_nil (cfg : Config) (env : RunEnv)
    (h1 : env.finalState.get "error" = none)
    (h2 : env.finalState.get "snapshot_name" = none)
    (hrun : RunEvent.runPipeline ∈ (Builder.Run cfg env).1) :
    (Builder.Run cfg env).2 = some (none, none) := by
  rcases Run_snd_cases cfg env with ⟨msg, hsnd, hmem⟩ | ⟨hnone, hmem⟩ |
    ⟨hmem, hsnd⟩
  · exact absurd hrun hmem
  · exact absurd hrun hmem
  · rw [hsnd]
    simp [finishRun, h1, h2]

/-- C8 witness: the baseline run with an empty final state returns
neither an artifact nor an error. -/
theorem c8_witness : (Builder.Run cfg0 renv0).2 = some (none, none) :=
  c8_no_error_no_snapshot_nil_nil cfg0 renv0 rfl rfl (by decide)

/-- A Run environment whose runner leaves an error in the state bag. -/
def renvErr : RunEnv :=
  { apiURLParseOk := true, userAgent := "ua", clientNewOk := true,
    regionsResult := Except.ok ["nyc3"],
    finalState := ⟨[("error", StateVal.err "boom")]⟩ }

/-- C2 counterexample: the claim that every returned value of
Builder.Run is exactly one of an artifact or a terminating error fails
on the path where the runner leaves neither an "error" nor a
"snapshot_name" entry: the concrete baseline run returns nil for
both. -/
theorem c2_counterexample :
    ¬ (∀ (cfg : Config) (env : RunEnv) (a : Option Artifact)
        (e : Option String),
        (Builder.Run cfg env).2 = some (a, e) →
        (a.isSome = true ∧ e = none) ∨ (a = none ∧ e.isSome = true)) := by
  intro hcl
  have h := hcl cfg0 renv0 none none (by decide)
  simp at h

/-- C2 amended: Builder.Run never returns both an artifact and an
error; a returned artifact is fully populated from the state bag
(snapshot name, snapshot id, region list) with a nil error; when the
pipeline ran and the error slot holds an error, that error is returned
with a nil artifact; but when the pipeline ran and the state bag holds
neither an "error" nor a "snapshot_name" entry, Run returns nil for
both. -/
theorem c2_amended_artifact_xor_error (cfg : Config) (env : RunEnv)
    (a : Option Artifact) (e : Option String)
    (h : (Builder.Run cfg env).2 = some (a, e)) :
    (a = none ∨ e = none) ∧
    (∀ art, a = some art →
      e = none ∧
      env.finalState.get "snapshot_name"
        = some (StateVal.str art.snapshotName) ∧
      env.finalState.get "snapshot_image_id"
        = some (StateVal.int art.snapshotId) ∧
      env.finalState.get "regions"
        = some (StateVal.strList art.regionNames)) ∧
    (∀ msg, RunEvent.runPipeline ∈ (Builder.Run cfg env).1 →
      env.finalState.get "error" = some (StateVal.err msg) →
      a = none ∧ e = some msg) ∧
    (RunEvent.runPipeline ∈ (Builder.Run cfg env).1 →
      env.finalState.get "error" = none →
      env.finalState.get "snapshot_name" = none →
      a = none ∧ e = none) := by
  rcases Run_snd_cases cfg env with ⟨msg, hsnd, hmem⟩ | ⟨hnone, hmem⟩ |
    ⟨hmem, hsnd⟩
  · rw [hsnd] at h
    injection h with h
    obtain ⟨rfl, rfl⟩ := Prod.mk.inj h
    refine ⟨Or.inl rfl, ?_, ?_, ?_⟩
    · intro art hart
      exact Option.noConfusion hart
    · intro m hm _
      exact absurd hm hmem
    · intro hm _ _
      exact absurd hm hmem
  · rw [hnone] at h
    exact Option.noConfusion h
  · rw [hsnd] at h
    rcases herr : env.finalState.get "error" with _ | v
    · rcases hsn : env.finalState.get "snapshot_name" with _ | nv
      · rw [finishRun, herr, hsn] at h
        injection h with h
        obtain ⟨rfl, rfl⟩ := Prod.mk.inj h
        refine ⟨Or.inl rfl, ?_, ?_, ?_⟩
        · intro art hart
          exact Option.noConfusion hart
        · intro m _ herr2
          exact Option.noConfusion herr2
        · intro _ _ _
          exact ⟨rfl, rfl⟩
      · rcases nv with _ | sname | n | l | emsg | t
        case str =>
          rcases himg : env.finalState.get "snapshot_image_id" with _ | iv
          · rw [finishRun, herr, hsn, himg] at h
            exact Option.noConfusion h
          · rcases hreg : env.finalState.get "regions" with _ | rv
            · rcases iv with _ | s2 | n2 | l2 | e2 | t2 <;>
                (rw [finishRun, herr, hsn, himg, hreg] at h
                 exact Option.noConfusion h)
            · rcases iv with _ | s2 | n2 | l2 | e2 | t2 <;>
                rcases rv with _ | s3 | n3 | l3 | e3 | t3 <;>
                first
                | (rw [finishRun, herr, hsn, himg, hreg] at h
                   exact Option.noConfusion h)
                | (rw [finishRun, herr, hsn, himg, hreg] at h
                   injection h with h
                   obtain ⟨rfl, rfl⟩ := Prod.mk.inj h
                   refine ⟨Or.inr rfl, ?_, ?_, ?_⟩
                   · intro art hart
                     injection hart with hart
                     subst hart
                     exact ⟨rfl, rfl, rfl, rfl⟩
                   · intro m _ herr2
                     exact Option.noConfusion herr2
                   · intro _ _ hsn2
                     exact Option.noConfusion hsn2)
        all_goals
          rw [finishRun, herr, hsn] at h
          exact Option.noConfusion h
    · rcases v with _ | sname | n | l | emsg | t
      case err =>
        rw [finishRun, herr] at h
        injection h with h
        obtain ⟨rfl, rfl⟩ := Prod.mk.inj h
        refine ⟨Or.inl rfl, ?_, ?_, ?_⟩
        · intro art hart
          exact Option.noConfusion hart
        · intro m _ herr2
          injection herr2 with herr2
          injection herr2 with herr2
          subst herr2
          exact ⟨rfl, rfl⟩
        · intro _ herr2 _
          exact Option.noConfusion herr2
      all_goals
        rw [finishRun, herr] at h
        exact Option.noConfusion h

/-- C2 witness: a run whose state bag holds an error returns that
error with a nil artifact and satisfies the amended disjunction. -/
theorem c2_witness :
    ((none : Option Artifact) = none ∨ (some "boom" : Option String) = none) ∧
    (∀ art, (none : Option Artifact) = some art →
      (some "boom" : Option String) = none ∧
      renvErr.finalState.get "snapshot_name"
        = some (StateVal.str art.snapshotName) ∧
      renvErr.finalState.get "snapshot_image_id"
        = some (StateVal.int art.snapshotId) ∧
      renvErr.finalState.get "regions"
        = some (StateVal.strList art.regionNames)) ∧
    (∀ msg, RunEvent.runPipeline ∈ (Builder.Run cfg0 renvErr).1 →
      renvErr.finalState.get "error" = some (StateVal.err msg) →
      (none : Option Artifact) = none ∧
        (some "boom" : Option String) = some msg) ∧
    (RunEvent.runPipeline ∈ (Builder.Run cfg0 renvErr).1 →
      renvErr.finalState.get "error" = none →
      renvErr.finalState.get "snapshot_name" = none →
      (none : Option Artifact) = none ∧
        (some "boom" : Option String) = none) :=
  c2_amended_artifact_xor_error cfg0 renvErr none (some "boom") (by decide)

end digitalocean
